import Mathlib

/-!
Verification of the edge-insights IoT platform core against its
natural-language specification.

The development shallowly embeds the Go server's core logic:

* `internal/types/types.go` — the `LogMessage` / `LogResponse` data model;
* `internal/ws/handler.go` — `validateLogMessage`, `broadcastToClients`
  and the per-message body of the `HandleWebSocket` read loop;
* `internal/ai/service.go` — `determineQueryType` and the `QueryLogs`
  routing between text-to-SQL and semantic search;
* `internal/ai/text_to_sql.go` — `ConvertToSQL` and the row shaping in
  `executeSQL`;
* `migrations/009_create_continuous_aggregates.sql` — the hierarchical
  continuous aggregates (5-minute → hourly → daily) and the daily
  activity summary.

Go machine values are embedded as plain Lean data: `time.Time` becomes a
`Nat` (nanoseconds since an epoch; Go's zero `Time` is `0`, and
`Time.IsZero` is `· = 0`), Go strings become `String`, the `*float64`
sensor value becomes an `Option` of a numeric payload that the embedded
core never computes with (it is only carried through), and fallible
collaborators (the database, the LLM) are explicit function parameters.
-/

namespace EdgeInsights

/-- Nanoseconds since the epoch; Go's `time.Time` zero value is `0`. -/
abbrev GoTime := Nat

/-- A websocket client connection, identified abstractly.  The Go
registry `map[*websocket.Conn]bool` keys connections by pointer, so a
`Nat` identifier with a duplicate-free registry list is faithful. -/
abbrev ClientId := Nat

/-- `types.LogMessage` — one ingested telemetry event.  The `RawValue`
field is `*float64` in Go; the embedded core never inspects the number
itself (only its presence), so its payload is embedded as `Int`
without loss. -/
structure LogMessage where
  time : GoTime
  deviceID : String
  deviceType : String
  location : String
  rawValue : Option Int
  unit : String
  logType : String
  message : String
deriving DecidableEq, Repr

/-- `types.LogResponse` — the per-message acknowledgment sent back to
the sender (`Error = ""` embeds Go's empty/omitted error field). -/
structure LogResponse where
  success : Bool
  message : String
  error : String
deriving DecidableEq, Repr

/-- `validateLogMessage` (handler.go 144-159).  The Go function takes
its argument **by value**; its `log.Time = time.Now()` assignment
mutates only the discarded local copy, so the function's sole
observable effect is the returned error.  `none` embeds a `nil` error. -/
def validateLogMessage (lg : LogMessage) : Option String :=
  if lg.deviceID = "" then some "device_id is required"
  else if lg.logType = "" then some "log_type is required"
  else if lg.logType = "" then some "LogType is required"
  else none

/-- The local copy of the message as it stands when `validateLogMessage`
returns: the zero timestamp has been replaced by `time.Now()`.  Go
passes the message by value, so this copy is discarded by the caller —
it is embedded separately to exhibit exactly what the substitution
assignment computes before it is lost. -/
def validateLocalCopy (now : GoTime) (lg : LogMessage) : LogMessage :=
  if lg.time = 0 then { lg with time := now } else lg

/-- `sendSuccess` (handler.go 168-178). -/
def successResponse : LogResponse :=
  { success := true, message := "Log stored successfully", error := "" }

/-- `sendError` (handler.go 181-192). -/
def errorResponse (errorMsg : String) : LogResponse :=
  { success := false, message := "Error processing log", error := errorMsg }

/-- The JSON object `{"type": "log_entry", "data": logMsg}` broadcast
to the registry after a successful store (handler.go 136-139). -/
structure WsBroadcast where
  type : String
  data : LogMessage
deriving DecidableEq, Repr

/-- Outcome of one call to `broadcastToClients` (handler.go 46-69).
`attempted` records the read-locked iteration over the registry (every
registered client gets a `WriteJSON` attempt, in registry order);
`delivered` the clients whose write succeeded; `removed` the
`clientsToRemove` list collected during that pass; `registry` the
registry after the separate write-locked deletion pass. -/
structure BroadcastResult where
  attempted : List ClientId
  delivered : List ClientId
  removed : List ClientId
  registry : List ClientId
deriving Repr

/-- `broadcastToClients` (handler.go 46-69).  `writeOk c` embeds
"`client.WriteJSON` on connection `c` returns no error".  The function
first iterates the whole registry under the read lock — writing to every
client and collecting the failed ones — and only afterwards deletes the
collected clients under the write lock (the `delete` loop is the
`foldl`/`erase`). -/
def broadcastToClients (writeOk : ClientId → Bool) (registry : List ClientId) :
    BroadcastResult :=
  let clientsToRemove := registry.filter (fun c => !writeOk c)
  { attempted := registry
    delivered := registry.filter (fun c => writeOk c)
    removed := clientsToRemove
    registry := clientsToRemove.foldl (fun r c => r.erase c) registry }

/-- Everything one iteration of the `HandleWebSocket` read loop
(handler.go 100-140) does with a successfully parsed message:
the `storeLog` calls it issues, the acknowledgments written to the
sender, the broadcast (if any), the registry afterwards, and whether
the loop `break`s (it never does on a parsed message — only a read
error exits the loop). -/
structure StepResult where
  persistCalls : List LogMessage
  senderResponses : List LogResponse
  broadcastAttempts : List (ClientId × WsBroadcast)
  broadcastDelivered : List (ClientId × WsBroadcast)
  registry : List ClientId
  loopExited : Bool
deriving Repr

/-- One iteration of the `HandleWebSocket` message loop on a parsed
`LogMessage` (handler.go 110-140).  `storeOk m` embeds
"`db.StoreSensorReading` succeeds on `m`" (the insert binds
`reading.Time` verbatim); `writeOk` embeds per-client `WriteJSON`
success; `sender` is the connection the message arrived on, which is
itself registered in `registry`.  Note that the validated-and-stored
message is the caller's `logMsg`, untouched by `validateLogMessage`'s
local timestamp substitution, and that the broadcast goes to the full
registry. -/
def processParsed (storeOk : LogMessage → Bool) (writeOk : ClientId → Bool)
    (registry : List ClientId) (lg : LogMessage) : StepResult :=
  match validateLogMessage lg with
  | some e =>
    { persistCalls := []
      senderResponses := [errorResponse e]
      broadcastAttempts := []
      broadcastDelivered := []
      registry := registry
      loopExited := false }
  | none =>
    if storeOk lg then
      let br := broadcastToClients writeOk registry
      let msg : WsBroadcast := { type := "log_entry", data := lg }
      { persistCalls := [lg]
        senderResponses := [successResponse]
        broadcastAttempts := br.attempted.map (fun c => (c, msg))
        broadcastDelivered := br.delivered.map (fun c => (c, msg))
        registry := br.registry
        loopExited := false }
    else
      { persistCalls := [lg]
        senderResponses := [errorResponse "Failed to store log"]
        broadcastAttempts := []
        broadcastDelivered := []
        registry := registry
        loopExited := false }

/-! ### Query classifier (`service.go`, `determineQueryType` / `QueryLogs`) -/

/-- `strings.Contains hay needle` on already-exploded character lists. -/
def containsSub (hay needle : List Char) : Bool :=
  decide (needle <:+: hay)

/-- `strings.ToLower` restricted to the ASCII range, which covers every
character of both keyword lexicons. -/
def toLowerList (s : String) : List Char :=
  s.data.map Char.toLower

/-- The fixed "structured data query" lexicon (`dataKeywords` in
`determineQueryType`, service.go 229-235). -/
def dataKeywords : List String :=
  ["show me", "what is", "how many", "average", "count", "temperature",
   "humidity", "motion", "camera", "controller", "device", "location",
   "last hour", "last 24 hours", "yesterday", "today", "this week",
   "above", "below", "between", "greater than", "less than",
   "raw_value", "unit", "time", "hour", "day", "week", "month"]

/-- The fixed "pattern discovery" lexicon (`patternKeywords` in
`determineQueryType`, service.go 238-243). -/
def patternKeywords : List String :=
  ["why", "how", "patterns", "similar", "unusual", "anomaly", "problem",
   "issue", "failure", "error", "warning", "critical", "security",
   "behavior", "trend", "insight", "analysis", "explain", "understand",
   "find logs", "search for", "discover", "investigate"]

/-- Structured-lexicon hits of a lowered text (the `dataMatches`
counting loop, service.go 249-253): one hit per lexicon entry contained
in the text. -/
def dCountL (lowered : List Char) : Nat :=
  dataKeywords.countP (fun k => containsSub lowered k.data)

/-- Pattern-lexicon hits of a lowered text (the `patternMatches`
counting loop, service.go 255-259). -/
def pCountL (lowered : List Char) : Nat :=
  patternKeywords.countP (fun k => containsSub lowered k.data)

/-- `dataMatches` for the raw query text. -/
def dataMatches (query : String) : Nat :=
  dCountL (toLowerList query)

/-- `patternMatches` for the raw query text. -/
def patternMatches (query : String) : Nat :=
  pCountL (toLowerList query)

/-- `determineQueryType` (service.go 224-267): lower-case, count hits
from each lexicon, return `"data_query"` exactly on strictly more
structured hits. -/
def determineQueryType (query : String) : String :=
  if dataMatches query > patternMatches query then "data_query"
  else "pattern_search"

/-- The two routing outcomes of `QueryLogs`. -/
inductive QueryRoute where
  | textToSQL
  | semanticSearch
deriving DecidableEq, Repr

/-- The routing decision of `QueryLogs` (service.go 210-222):
`"data_query"` goes to `textToSQL.ConvertToSQL`, everything else to
`performSemanticSearch`. -/
def queryLogsRoute (query : String) : QueryRoute :=
  if determineQueryType query = "data_query" then QueryRoute.textToSQL
  else QueryRoute.semanticSearch

/-- `QueryLogs` itself, with the two handlers as explicit collaborator
parameters (they are network- and database-bound in Go). -/
def QueryLogs {ρ : Type} (convertToSQL performSemanticSearch : String → ρ)
    (query : String) : ρ :=
  if determineQueryType query = "data_query" then convertToSQL query
  else performSemanticSearch query

/-! ### Text-to-SQL pipeline (`text_to_sql.go`) -/

/-- A database value as scanned by `rows.Scan` into an `interface{}`
slot (text_to_sql.go 261-272): a `time.Time`, a `[]byte` (PostgreSQL
numerics arrive this way), a `string`, or some other driver value left
untouched by the shaping code (embedded by an integer payload). -/
inductive DbValue where
  | timeV (t : GoTime)
  | bytesV (s : String)
  | strV (s : String)
  | otherV (n : Int)
deriving DecidableEq, Repr

/-- A shaped output cell of `executeSQL`'s row map: a string, a float
(embedded abstractly as the string `strconv.ParseFloat` succeeded on),
a `nil`, or a pass-through driver value. -/
inductive OutValue where
  | str (s : String)
  | num (parsed : String)
  | null
  | other (n : Int)
deriving DecidableEq, Repr

/-- The per-cell conversion of `executeSQL` (text_to_sql.go 281-308):
`time.Time` is reformatted with `time.RFC3339`; `[]byte` is parsed as a
float when possible ("" becomes `nil`); `string` is parsed as a float
when possible; anything else passes through.  `formatRFC3339` embeds
Go's `Format(time.RFC3339)` and `parseFloat` embeds
`strconv.ParseFloat` — both are standard-library collaborators taken as
parameters. -/
def convertCell (formatRFC3339 : GoTime → String) (parseFloat : String → Bool)
    (v : DbValue) : OutValue :=
  match v with
  | DbValue.timeV t => OutValue.str (formatRFC3339 t)
  | DbValue.bytesV s =>
    if s = "" then OutValue.null
    else if parseFloat s then OutValue.num s else OutValue.str s
  | DbValue.strV s =>
    if parseFloat s then OutValue.num s else OutValue.str s
  | DbValue.otherV n => OutValue.other n

/-- The column filter of `executeSQL` (text_to_sql.go 248-256): keep
every selected column except `embedding` and `message`, in order. -/
def filteredColumns (columns : List String) : List String :=
  columns.filter (fun col => col ≠ "embedding" && col ≠ "message")

/-- One shaped result row of `executeSQL` (text_to_sql.go 275-309):
the Go code builds `map[string]interface{}` over the filtered columns;
the embedding keeps it as the association list written in filter order,
which determines the same map when the selected columns are distinct. -/
def shapeRow (formatRFC3339 : GoTime → String) (parseFloat : String → Bool)
    (columns : List String) (vals : List DbValue) : List (String × OutValue) :=
  ((columns.zip vals).filter
      (fun cv => cv.1 ≠ "embedding" && cv.1 ≠ "message")).map
    (fun cv => (cv.1, convertCell formatRFC3339 parseFloat cv.2))

/-- The result-set shaping of `executeSQL`: every scanned row becomes a
shaped row; `rowCount` is the number of rows. -/
def executeSQLRows (formatRFC3339 : GoTime → String) (parseFloat : String → Bool)
    (columns : List String) (rows : List (List DbValue)) :
    List (List (String × OutValue)) :=
  rows.map (shapeRow formatRFC3339 parseFloat columns)

/-- The payload assembled by `ConvertToSQL` (text_to_sql.go 67-73). -/
structure SQLQueryResponse where
  sql : String
  result : List (List (String × OutValue))
  rowCount : Nat
  queryType : String
  explanation : String
deriving DecidableEq, Repr

/-- `ConvertToSQL` (text_to_sql.go 53-81) with its two effectful steps
as collaborator parameters: `generate` embeds `generateSQL` (the
chat-completion call plus query-type/explanation tagging) and `execute`
embeds `executeSQL` on the live database.  The generated SQL is passed
to `execute` and the execution result is returned unconditionally —
there is no validation step between or after them. -/
def ConvertToSQL
    (generate : String → Except String (String × String × String))
    (execute : String → Except String (List (List (String × OutValue)) × Nat))
    (query : String) : Except String SQLQueryResponse :=
  match generate query with
  | Except.error e => Except.error ("failed to generate SQL: " ++ e)
  | Except.ok (sqlQuery, queryType, explanation) =>
    match execute sqlQuery with
    | Except.error e => Except.error ("failed to execute SQL: " ++ e)
    | Except.ok (results, rowCount) =>
      Except.ok
        { sql := sqlQuery
          result := results
          rowCount := rowCount
          queryType := queryType
          explanation := explanation }

/-- Modelled from the spec: "Every emitted query against a time-bucketed
source must include the bucket column in the result projection."  The
repository has no function deciding this; the predicate below follows
the spec's words (the bucket columns of the three tiered sources are
`five_min_bucket`, `hour` and `day`) so the rejection behaviour the
spec asserts can be compared with what `ConvertToSQL` actually does. -/
def specHasTimeAxis (projection : List String) : Bool :=
  projection.any (fun col =>
    col = "five_min_bucket" || col = "hour" || col = "day")

/-! ### Hierarchical continuous aggregates
(`migrations/009_create_continuous_aggregates.sql`)

The SQL views are embedded as list-level grouped aggregations: a
`GROUP BY bucket, device_type, location` over a source list is the map
over the deduplicated key list of the per-group aggregate row.
`NUMERIC` sensor values become `ℚ` so that `avg` is exact. -/

/-- A raw `sensor_readings` row, as the aggregates see it:
`time` (seconds, for bucketing), the two grouping dimensions,
the nullable `raw_value` and the `log_type`. -/
structure Reading where
  time : Nat
  deviceType : String
  location : String
  rawValue : Option ℚ
  logType : String

/-- `time_bucket(width, t)`: the greatest multiple of `width` at most
`t` (TimescaleDB buckets align to the epoch origin). -/
def timeBucket (width t : Nat) : Nat :=
  width * (t / width)

/-- A `GROUP BY` key: (bucket, device_type, location). -/
abbrev GroupKey := Nat × String × String

/-- The distinct group keys of a source list, in first-appearance
order. -/
def keysOf {α : Type} (f : α → GroupKey) (l : List α) : List GroupKey :=
  (l.map f).dedup

/-- The rows of one group. -/
def groupOf {α : Type} (f : α → GroupKey) (l : List α) (key : GroupKey) :
    List α :=
  l.filter (fun a => decide (f a = key))

/-- `avg` of a list of rationals (0 on the empty list, which no
SQL group produces). -/
def ratAvg (vs : List ℚ) : ℚ :=
  vs.sum / vs.length

/-- `min` over a list of rationals. -/
def qMin : List ℚ → ℚ
  | [] => 0
  | [a] => a
  | a :: b :: rest => min a (qMin (b :: rest))

/-- `max` over a list of rationals. -/
def qMax : List ℚ → ℚ
  | [] => 0
  | [a] => a
  | a :: b :: rest => max a (qMax (b :: rest))

/-- One aggregate-view row: a bucket, the grouping dimensions,
`avg_value`, `min_value`, `max_value` and `reading_count`. -/
structure AggRow where
  bucket : Nat
  deviceType : String
  location : String
  avgValue : ℚ
  minValue : ℚ
  maxValue : ℚ
  readingCount : Nat

/-- The grouping key a raw reading falls into at bucket width
`width`. -/
def readingKey (width : Nat) (r : Reading) : GroupKey :=
  (timeBucket width r.time, r.deviceType, r.location)

/-- The grouping key an aggregate row falls into when rolled up to the
coarser bucket width `width` (`time_bucket('1 hour', five_min_bucket)`
and `time_bucket('1 day', hour)` in the SQL). -/
def aggKey (width : Nat) (row : AggRow) : GroupKey :=
  (timeBucket width row.bucket, row.deviceType, row.location)

/-- `five_min_sensor_averages` (migration 009, lines 5-17): grouped
directly over raw readings with `raw_value IS NOT NULL`, taking
`avg/min/max(raw_value)` and `count(*)` per 5-minute bucket. -/
def fiveMinRows (rs : List Reading) : List AggRow :=
  let src := rs.filter (fun r => r.rawValue.isSome)
  (keysOf (readingKey 300) src).map (fun key =>
    let vals := (groupOf (readingKey 300) src key).filterMap (fun r => r.rawValue)
    { bucket := key.1
      deviceType := key.2.1
      location := key.2.2
      avgValue := ratAvg vals
      minValue := qMin vals
      maxValue := qMax vals
      readingCount := vals.length })

/-- The shared shape of the two higher tiers (migration 009, lines
19-45): group the rows of the immediately lower tier by the coarser
bucket and take `avg(avg_value)`, `min(min_value)`, `max(max_value)`,
`sum(reading_count)`. -/
def rollUp (width : Nat) (lower : List AggRow) : List AggRow :=
  (keysOf (aggKey width) lower).map (fun key =>
    let grp := groupOf (aggKey width) lower key
    { bucket := key.1
      deviceType := key.2.1
      location := key.2.2
      avgValue := ratAvg (grp.map (fun row => row.avgValue))
      minValue := qMin (grp.map (fun row => row.minValue))
      maxValue := qMax (grp.map (fun row => row.maxValue))
      readingCount := (grp.map (fun row => row.readingCount)).sum })

/-- `hourly_sensor_averages`: the hourly roll-up of the 5-minute
tier (its `FROM` clause is `five_min_sensor_averages`). -/
def hourlyRows (rs : List Reading) : List AggRow :=
  rollUp 3600 (fiveMinRows rs)

/-- `daily_sensor_averages`: the daily roll-up of the hourly tier
(its `FROM` clause is `hourly_sensor_averages`). -/
def dailyRows (rs : List Reading) : List AggRow :=
  rollUp 86400 (hourlyRows rs)

/-- One `daily_device_activity` row (migration 009, lines 47-60). -/
structure ActivityRow where
  day : Nat
  deviceType : String
  location : String
  totalReadings : Nat
  errorCount : Nat
  warningCount : Nat
  infoCount : Nat

/-- `daily_device_activity`: per-day severity counts grouped directly
over raw readings (its `FROM` clause is `sensor_readings`; no
`raw_value` filter). -/
def dailyActivityRows (rs : List Reading) : List ActivityRow :=
  (keysOf (readingKey 86400) rs).map (fun key =>
    let grp := groupOf (readingKey 86400) rs key
    { day := key.1
      deviceType := key.2.1
      location := key.2.2
      totalReadings := grp.length
      errorCount :=
        grp.countP (fun r => r.logType == "ERROR" || r.logType == "CRITICAL")
      warningCount := grp.countP (fun r => r.logType == "WARNING")
      infoCount := grp.countP (fun r => r.logType == "INFO") })

/-- The sources named by the migration's view definitions. -/
inductive AggSource where
  | rawReadings
  | fiveMinView
  | hourlyView
  | dailyView
  | activityView
deriving DecidableEq, Repr

/-- The `FROM` clause of each materialized view in migration 009
(`none` for the raw hypertable, which is not a view). -/
def viewSource : AggSource → Option AggSource
  | AggSource.rawReadings => none
  | AggSource.fiveMinView => some AggSource.rawReadings
  | AggSource.hourlyView => some AggSource.fiveMinView
  | AggSource.dailyView => some AggSource.hourlyView
  | AggSource.activityView => some AggSource.rawReadings

/-- The suffixes of `q` that begin right after one of its space
characters.  Used to rule out pattern-lexicon matches spanning the
boundary between a text and a keyword appended to it as a separate
word. -/
def spaceSuffixes (q : List Char) : List (List Char) :=
  (List.range q.length).filterMap (fun i =>
    match q.drop i with
    | ' ' :: rest => some rest
    | _ => none)

/-- Occurrences of `a` in `l` (propositional-equality counting, used to
state "receives exactly one event"). -/
def countOcc {α : Type} [DecidableEq α] (a : α) (l : List α) : Nat :=
  l.countP (fun x => decide (x = a))

/-! ### Concrete fixtures used by the closed theorems below -/

/-- A store collaborator that always succeeds. -/
def allStoreOk : LogMessage → Bool := fun _ => true

/-- A write collaborator that always succeeds. -/
def allWriteOk : ClientId → Bool := fun _ => true

/-- A write collaborator for which exactly connection `1` is broken. -/
def writeOkExceptOne : ClientId → Bool := fun c => decide (c ≠ 1)

/-- The spec's example scenario input, arriving without a timestamp
(Go decodes the absent `time` field to the zero `time.Time`). -/
def lgZeroTime : LogMessage :=
  { time := 0, deviceID := "d1", deviceType := "temperature_sensor",
    location := "warehouse_a", rawValue := none, unit := "",
    logType := "ERROR", message := "sensor malfunction" }

/-- A well-formed reading with a nonzero timestamp. -/
def lgValid : LogMessage :=
  { time := 9, deviceID := "d1", deviceType := "temperature_sensor",
    location := "warehouse_a", rawValue := some 21, unit := "celsius",
    logType := "INFO", message := "temperature normal" }

/-- A reading whose free-text message is empty and whose numeric value
is absent. -/
def lgEmptyMessage : LogMessage :=
  { time := 7, deviceID := "d1", deviceType := "temperature_sensor",
    location := "warehouse_a", rawValue := none, unit := "",
    logType := "INFO", message := "" }

/-- A reading missing its device identifier. -/
def lgNoDevice : LogMessage :=
  { time := 3, deviceID := "", deviceType := "camera",
    location := "parking_lot", rawValue := none, unit := "",
    logType := "INFO", message := "motion detected" }

/-- A generator stub that emits a structured query whose projection has
an aggregate value but no time-bucket column. -/
def genBucketless : String → Except String (String × String × String) :=
  fun _ =>
    Except.ok ("SELECT avg(avg_value) FROM hourly_sensor_averages",
      "aggregation",
      "This query calculates aggregated statistics from your sensor data")

/-- An executor stub returning one result row with a single `avg`
column. -/
def execOneAvgRow : String → Except String (List (List (String × OutValue)) × Nat) :=
  fun _ => Except.ok ([[("avg", OutValue.num "12.5")]], 1)

end EdgeInsights

namespace EdgeInsights

/-! ### Helper lemmas -/

/-- `countOcc` across an injective map. -/
theorem countOcc_map_of_injective {α β : Type} [DecidableEq α] [DecidableEq β]
    (f : α → β) (hf : Function.Injective f) (l : List α) (a : α) :
    countOcc (f a) (l.map f) = countOcc a l := by
  induction l with
  | nil => rfl
  | cons hd tl ih =>
    simp only [countOcc, List.map_cons, List.countP_cons] at *
    rw [ih]
    have : (decide (f hd = f a)) = (decide (hd = a)) := by
      simp [hf.eq_iff]
    rw [this]

/-- In a duplicate-free list a member occurs exactly once. -/
theorem countOcc_eq_one_of_nodup {α : Type} [DecidableEq α] {a : α}
    {l : List α} (hnd : l.Nodup) (h : a ∈ l) : countOcc a l = 1 := by
  induction l with
  | nil => cases h
  | cons hd tl ih =>
    simp only [countOcc, List.countP_cons] at *
    rcases List.mem_cons.1 h with rfl | h'
    · have h0 : tl.countP (fun x => decide (x = a)) = 0 := by
        rw [List.countP_eq_zero]
        intro x hx
        simp only [decide_eq_true_iff]
        exact fun hxa => (List.nodup_cons.1 hnd).1 (hxa ▸ hx)
      simp [countOcc, h0]
    · have ha : ¬ hd = a := fun hh =>
        (List.nodup_cons.1 hnd).1 (hh ▸ h')
      have := ih (List.nodup_cons.1 hnd).2 h'
      simp only [countOcc] at this
      simp [this, ha]

/-- An association list none of whose keys is `a` looks `a` up to
`none`. -/
theorem lookup_eq_none_of_keys {β : Type} (a : String)
    (l : List (String × β)) (h : ∀ p ∈ l, p.1 ≠ a) : l.lookup a = none := by
  induction l with
  | nil => rfl
  | cons hd tl ih =>
    have h1 : ¬ (a == hd.1) = true := by
      simp only [beq_iff_eq]
      exact fun hh => h hd (by simp) hh.symm
    simp only [List.lookup, Bool.not_eq_true] at *
    rw [h1]
    exact ih fun p hp => h p (by simp [hp])

/-- Go's `for _, c := range rem { delete(m, c) }` over a duplicate-free
list: erasing each element of `rem` in turn keeps exactly the elements
not in `rem`. -/
theorem foldl_erase_eq_filter :
    ∀ (rem l : List ClientId), l.Nodup →
      rem.foldl (fun r c => r.erase c) l =
        l.filter (fun c => !decide (c ∈ rem)) := by
  intro rem
  induction rem with
  | nil => intro l _; simp
  | cons a rem ih =>
    intro l hnd
    rw [List.foldl_cons, ih (l.erase a) (List.Nodup.erase a hnd),
      List.Nodup.erase_eq_filter hnd a, List.filter_filter]
    apply List.filter_congr
    intro x _
    by_cases hxa : x = a <;> by_cases hxr : x ∈ rem <;>
      simp [hxa, hxr, List.mem_cons]

/-- The write-locked removal pass of `broadcastToClients` leaves exactly
the clients whose write succeeded. -/
theorem broadcastToClients_registry (writeOk : ClientId → Bool)
    (registry : List ClientId) (hnd : registry.Nodup) :
    (broadcastToClients writeOk registry).registry =
      registry.filter (fun c => writeOk c) := by
  show (registry.filter (fun c => !writeOk c)).foldl
      (fun r c => r.erase c) registry = registry.filter (fun c => writeOk c)
  rw [foldl_erase_eq_filter _ _ hnd]
  apply List.filter_congr
  intro x hx
  by_cases hw : writeOk x <;>
    simp [List.mem_filter, hx, hw]

/-! ### C1 — the zero-timestamp substitution is lost before persistence -/

/-- C1: the claim says a zero-value timestamp is replaced by the current
time before persistence and that the substituted value is what is
persisted and broadcast.  On the code this fails: `validateLogMessage`
receives the message by value, so the substitution survives only in its
discarded local copy (`validateLocalCopy`), while the message actually
persisted and broadcast for the spec's own example input still carries
timestamp `0`. -/
theorem c1_zero_timestamp_persisted_unsubstituted :
    validateLogMessage lgZeroTime = none ∧
    (validateLocalCopy 1700000000 lgZeroTime).time = 1700000000 ∧
    (processParsed allStoreOk allWriteOk [0, 1, 2] lgZeroTime).persistCalls
      = [lgZeroTime] ∧
    ((processParsed allStoreOk allWriteOk [0, 1, 2] lgZeroTime).broadcastDelivered.map
        (fun cm => cm.2.data.time)) = [0, 0, 0] ∧
    lgZeroTime.time = 0 := by
  decide

/-! ### C2 — the sender is broadcast to as well -/

/-- C2 counterexample: with registry `[0, 1, 2]` and sender `0`, after a
successful store the sender itself receives the `log_entry` echo of its
own message (it is iterated like every other registered client), so the
claim that the sender never receives the broadcast echo is false. -/
theorem c2_counterexample_sender_gets_echo :
    ((0 : ClientId), ({ type := "log_entry", data := lgValid } : WsBroadcast)) ∈
      (processParsed allStoreOk allWriteOk [0, 1, 2] lgValid).broadcastDelivered ∧
    (processParsed allStoreOk allWriteOk [0, 1, 2] lgValid).senderResponses
      = [successResponse] := by
  decide

/-- C2 amended: after a successful store, every registered connection —
including the sender — receives exactly one `log_entry` event carrying
the stored reading, and the sender additionally receives the success
acknowledgment. -/
theorem c2_broadcast_reaches_every_client_including_sender
    (storeOk : LogMessage → Bool) (writeOk : ClientId → Bool)
    (registry : List ClientId) (lg : LogMessage) (sender : ClientId)
    (hnd : registry.Nodup) (hs : sender ∈ registry)
    (hv : validateLogMessage lg = none) (hst : storeOk lg = true)
    (hw : ∀ c ∈ registry, writeOk c = true) :
    (∀ c ∈ registry,
      countOcc (c, ({ type := "log_entry", data := lg } : WsBroadcast))
        (processParsed storeOk writeOk registry lg).broadcastDelivered = 1) ∧
    countOcc (sender, ({ type := "log_entry", data := lg } : WsBroadcast))
        (processParsed storeOk writeOk registry lg).broadcastDelivered = 1 ∧
    (processParsed storeOk writeOk registry lg).senderResponses
        = [successResponse] := by
  have hdeliv : (processParsed storeOk writeOk registry lg).broadcastDelivered =
      registry.map
        (fun c => (c, ({ type := "log_entry", data := lg } : WsBroadcast))) := by
    simp only [processParsed, hv, hst, if_true, broadcastToClients]
    rw [List.filter_eq_self.2 hw]
  have hcount : ∀ c ∈ registry,
      countOcc (c, ({ type := "log_entry", data := lg } : WsBroadcast))
        (processParsed storeOk writeOk registry lg).broadcastDelivered = 1 := by
    intro c hc
    rw [hdeliv]
    have hinj : Function.Injective
        (fun c : ClientId => (c, ({ type := "log_entry", data := lg } : WsBroadcast))) := by
      intro x y hxy
      simpa using congrArg Prod.fst hxy
    exact (countOcc_map_of_injective _ hinj registry c).trans
      (countOcc_eq_one_of_nodup hnd hc)
  refine ⟨hcount, hcount sender hs, ?_⟩
  simp [processParsed, hv, hst]

/-- C2 amended, at a concrete input: registry `[0, 1, 2]`, sender `0`,
all collaborators succeeding. -/
theorem c2_broadcast_witness :
    countOcc ((0 : ClientId), ({ type := "log_entry", data := lgValid } : WsBroadcast))
        (processParsed allStoreOk allWriteOk [0, 1, 2] lgValid).broadcastDelivered = 1 ∧
    (processParsed allStoreOk allWriteOk [0, 1, 2] lgValid).senderResponses
        = [successResponse] := by
  have h := c2_broadcast_reaches_every_client_including_sender
    allStoreOk allWriteOk [0, 1, 2] lgValid 0
    (by decide) (by decide) (by decide) (by decide) (by decide)
  exact ⟨h.2.1, h.2.2⟩

/-! ### C3 — no time-axis validation exists -/

/-- C3 counterexample: a generated structured query whose projection is
the single column `avg` — an aggregate value with no time axis
(`specHasTimeAxis ["avg"] = false`) — is executed and its result row is
returned to the caller, not rejected. -/
theorem c3_counterexample_bucketless_query_returned :
    ConvertToSQL genBucketless execOneAvgRow "What is the average humidity?" =
      Except.ok
        { sql := "SELECT avg(avg_value) FROM hourly_sensor_averages"
          result := [[("avg", OutValue.num "12.5")]]
          rowCount := 1
          queryType := "aggregation"
          explanation :=
            "This query calculates aggregated statistics from your sensor data" } ∧
    specHasTimeAxis ["avg"] = false := by
  exact ⟨rfl, rfl⟩

/-- C3 amended: `ConvertToSQL` performs no validation between or after
its two steps — whatever SQL the generator emits is executed and, when
the executor succeeds, its result is returned to the caller unchanged,
whether or not the projection carries a time-bucket column (the only
guard against a missing time axis is prompt text sent to the LLM). -/
theorem c3_convert_to_sql_returns_without_validation
    (generate : String → Except String (String × String × String))
    (execute : String → Except String (List (List (String × OutValue)) × Nat))
    (query sqlQuery queryType explanation : String)
    (rows : List (List (String × OutValue))) (n : Nat)
    (hg : generate query = Except.ok (sqlQuery, queryType, explanation))
    (he : execute sqlQuery = Except.ok (rows, n)) :
    ConvertToSQL generate execute query =
      Except.ok
        { sql := sqlQuery, result := rows, rowCount := n,
          queryType := queryType, explanation := explanation } := by
  simp only [ConvertToSQL, hg, he]

/-- C3 amended, at the concrete bucket-less generator and executor. -/
theorem c3_no_validation_witness :
    ConvertToSQL genBucketless execOneAvgRow "average humidity" =
      Except.ok
        { sql := "SELECT avg(avg_value) FROM hourly_sensor_averages"
          result := [[("avg", OutValue.num "12.5")]]
          rowCount := 1
          queryType := "aggregation"
          explanation :=
            "This query calculates aggregated statistics from your sensor data" } :=
  c3_convert_to_sql_returns_without_validation genBucketless execOneAvgRow
    "average humidity" "SELECT avg(avg_value) FROM hourly_sensor_averages"
    "aggregation"
    "This query calculates aggregated statistics from your sensor data"
    [[("avg", OutValue.num "12.5")]] 1 rfl rfl

/-! ### C4 — the validator never inspects message or value -/

/-- C4 counterexample: a reading with an empty message and no numeric
value is accepted by `validateLogMessage`, so the claim that such
readings are rejected is false. -/
theorem c4_counterexample_empty_message_accepted :
    validateLogMessage lgEmptyMessage = none ∧
    lgEmptyMessage.message = "" ∧ lgEmptyMessage.rawValue = none := by
  decide

/-- C4 amended: `validateLogMessage` places no constraint on the message
or the numeric value — it accepts a reading exactly when the device id
and log type are non-empty, and its verdict is invariant under any
change of `message` and `rawValue`. -/
theorem c4_validator_ignores_message_and_value (lg : LogMessage) :
    (validateLogMessage lg = none ↔ lg.deviceID ≠ "" ∧ lg.logType ≠ "") ∧
    (∀ (m : String) (v : Option Int),
      validateLogMessage { lg with message := m, rawValue := v } =
        validateLogMessage lg) := by
  constructor
  · unfold validateLogMessage
    split_ifs with h1 h2 <;> simp_all
  · intro m v
    rfl

/-! ### C5 — classifier tie-break and routing -/

/-- C5: `determineQueryType` lower-cases the input and counts
containment hits from the two fixed lexicons (that computation is the
definition of `dataMatches`/`patternMatches`); it answers `"data_query"`
exactly when the structured count strictly exceeds the pattern count,
answers `"pattern_search"` otherwise — ties included — and `QueryLogs`
routes the former to SQL generation and everything else to semantic
search. -/
theorem c5_classifier_tie_break_and_routing (query : String) :
    (determineQueryType query = "data_query" ↔
      dataMatches query > patternMatches query) ∧
    (determineQueryType query = "pattern_search" ↔
      dataMatches query ≤ patternMatches query) ∧
    (queryLogsRoute query = QueryRoute.textToSQL ↔
      dataMatches query > patternMatches query) ∧
    (queryLogsRoute query = QueryRoute.semanticSearch ↔
      dataMatches query ≤ patternMatches query) ∧
    (∀ (ρ : Type) (convert semantic : String → ρ),
      QueryLogs convert semantic query =
        match queryLogsRoute query with
        | QueryRoute.textToSQL => convert query
        | QueryRoute.semanticSearch => semantic query) := by
  by_cases h : dataMatches query > patternMatches query
  · refine ⟨?_, ?_, ?_, ?_, ?_⟩ <;>
      simp [determineQueryType, queryLogsRoute, QueryLogs, h, Nat.le_of_lt]
  · refine ⟨?_, ?_, ?_, ?_, ?_⟩ <;>
      simp [determineQueryType, queryLogsRoute, QueryLogs, h] <;> omega

/-! ### C7 — missing required field: reject, no persist, no broadcast -/

/-- C7: a reading missing its device identifier or its log type is
rejected by `validateLogMessage` with the error string naming that field
(device id checked first); the loop body then issues no `storeLog` call,
writes exactly one negative acknowledgment to the sender, broadcasts
nothing, leaves the registry unchanged and does not exit the read
loop. -/
theorem c7_missing_field_no_persist_no_broadcast
    (storeOk : LogMessage → Bool) (writeOk : ClientId → Bool)
    (registry : List ClientId) (lg : LogMessage)
    (h : lg.deviceID = "" ∨ lg.logType = "") :
    ∃ e, validateLogMessage lg = some e ∧
      (lg.deviceID = "" → e = "device_id is required") ∧
      (lg.deviceID ≠ "" → e = "log_type is required") ∧
      (errorResponse e).success = false ∧
      processParsed storeOk writeOk registry lg =
        { persistCalls := []
          senderResponses := [errorResponse e]
          broadcastAttempts := []
          broadcastDelivered := []
          registry := registry
          loopExited := false } := by
  by_cases hd : lg.deviceID = ""
  · refine ⟨"device_id is required", ?_, fun _ => rfl, fun hne => absurd hd hne,
      rfl, ?_⟩
    · unfold validateLogMessage
      rw [if_pos hd]
    · unfold processParsed validateLogMessage
      rw [if_pos hd]
  · have hl : lg.logType = "" := h.resolve_left hd
    refine ⟨"log_type is required", ?_, fun he => absurd he hd, fun _ => rfl,
      rfl, ?_⟩
    · unfold validateLogMessage
      rw [if_neg hd, if_pos hl]
    · unfold processParsed validateLogMessage
      rw [if_neg hd, if_pos hl]

/-- C7 at a concrete input: a reading with an empty device id. -/
theorem c7_missing_field_witness :
    validateLogMessage lgNoDevice = some "device_id is required" ∧
    processParsed allStoreOk allWriteOk [0, 1] lgNoDevice =
      { persistCalls := []
        senderResponses := [errorResponse "device_id is required"]
        broadcastAttempts := []
        broadcastDelivered := []
        registry := [0, 1]
        loopExited := false } := by
  obtain ⟨e, he, h1, _, _, hp⟩ :=
    c7_missing_field_no_persist_no_broadcast allStoreOk allWriteOk [0, 1]
      lgNoDevice (Or.inl rfl)
  have he' : e = "device_id is required" := h1 rfl
  subst he'
  exact ⟨he, hp⟩

/-! ### C8 — broadcast failure isolation and the two-pass structure -/

/-- C8: when an observer `b`'s write fails during a broadcast, the
read-locked pass still attempts every registered client (it iterates the
original registry in full, mutating nothing), every other client whose
write succeeds is delivered to, the failed clients are only collected
during that pass and removed in the separate write-locked pass
afterwards, and a subsequent broadcast iterates exactly the cleaned
registry. -/
theorem c8_broadcast_two_phase_failure_isolation
    (writeOk : ClientId → Bool) (registry : List ClientId) (b : ClientId)
    (hnd : registry.Nodup) (hb : b ∈ registry) (hf : writeOk b = false) :
    (broadcastToClients writeOk registry).attempted = registry ∧
    (broadcastToClients writeOk registry).removed =
      registry.filter (fun c => !writeOk c) ∧
    (broadcastToClients writeOk registry).registry =
      registry.filter (fun c => writeOk c) ∧
    b ∈ (broadcastToClients writeOk registry).removed ∧
    b ∉ (broadcastToClients writeOk registry).registry ∧
    (∀ c ∈ registry, writeOk c = true →
      c ∈ (broadcastToClients writeOk registry).delivered) ∧
    (∀ writeOk2 : ClientId → Bool,
      (broadcastToClients writeOk2
          ((broadcastToClients writeOk registry).registry)).attempted =
        registry.filter (fun c => writeOk c)) := by
  have hreg := broadcastToClients_registry writeOk registry hnd
  refine ⟨rfl, rfl, hreg, ?_, ?_, ?_, ?_⟩
  · show b ∈ registry.filter (fun c => !writeOk c)
    rw [List.mem_filter]
    exact ⟨hb, by rw [hf]; rfl⟩
  · rw [hreg, List.mem_filter]
    rintro ⟨-, hw⟩
    rw [hf] at hw
    cases hw
  · intro c hc hw
    show c ∈ registry.filter (fun c => writeOk c)
    rw [List.mem_filter]
    exact ⟨hc, hw⟩
  · intro writeOk2
    rw [hreg]
    rfl

/-- C8 at a concrete input: registry `[0, 1, 2]` with connection `1`
broken. -/
theorem c8_failure_isolation_witness :
    (broadcastToClients writeOkExceptOne [0, 1, 2]).removed = [1] ∧
    (broadcastToClients writeOkExceptOne [0, 1, 2]).registry = [0, 2] ∧
    (broadcastToClients writeOkExceptOne [0, 1, 2]).attempted = [0, 1, 2] ∧
    (1 : ClientId) ∉ (broadcastToClients writeOkExceptOne [0, 1, 2]).registry := by
  have h := c8_broadcast_two_phase_failure_isolation writeOkExceptOne
    [0, 1, 2] 1 (by decide) (by decide) (by decide)
  exact ⟨h.2.1.trans (by decide), h.2.2.1.trans (by decide), h.1,
    h.2.2.2.2.1⟩

/-! ### C10 — executeSQL omits the embedding and message columns -/

/-- C10: every result row shaped by `executeSQL` omits the `embedding`
and `message` columns; every other selected column is kept with its
value converted (a `time.Time` is reformatted through the RFC3339
formatter, numeric `[]byte`/`string` values become floats when they
parse); and therefore every row in the `result` payload a
`ConvertToSQL` success built over `executeSQLRows` returns to the
caller omits those two columns as well. -/
theorem c10_execute_sql_filters_columns
    (formatRFC3339 : GoTime → String) (parseFloat : String → Bool)
    (columns : List String) (vals : List DbValue)
    (rows : List (List DbValue)) :
    ((shapeRow formatRFC3339 parseFloat columns vals).lookup "embedding"
      = none) ∧
    ((shapeRow formatRFC3339 parseFloat columns vals).lookup "message"
      = none) ∧
    (∀ cv ∈ columns.zip vals, cv.1 ≠ "embedding" → cv.1 ≠ "message" →
      (cv.1, convertCell formatRFC3339 parseFloat cv.2) ∈
        shapeRow formatRFC3339 parseFloat columns vals) ∧
    (executeSQLRows formatRFC3339 parseFloat columns rows =
      rows.map (shapeRow formatRFC3339 parseFloat columns)) ∧
    (∀ t, convertCell formatRFC3339 parseFloat (DbValue.timeV t) =
      OutValue.str (formatRFC3339 t)) ∧
    (∀ s, s ≠ "" → parseFloat s = true →
      convertCell formatRFC3339 parseFloat (DbValue.bytesV s) =
        OutValue.num s) ∧
    (∀ s, parseFloat s = true →
      convertCell formatRFC3339 parseFloat (DbValue.strV s) =
        OutValue.num s) ∧
    (∀ (generate : String → Except String (String × String × String))
       (query : String) (n : Nat) (resp : SQLQueryResponse),
      ConvertToSQL generate
          (fun _ => Except.ok
            (executeSQLRows formatRFC3339 parseFloat columns rows, n))
          query = Except.ok resp →
      ∀ row ∈ resp.result,
        row.lookup "embedding" = none ∧ row.lookup "message" = none) := by
  have hkeys : ∀ (vs : List DbValue) (p : String × OutValue),
      p ∈ shapeRow formatRFC3339 parseFloat columns vs →
      p.1 ≠ "embedding" ∧ p.1 ≠ "message" := by
    intro vs p hp
    unfold shapeRow at hp
    obtain ⟨cv, hcv, rfl⟩ := List.mem_map.1 hp
    have := (List.mem_filter.1 hcv).2
    constructor
    · intro h
      rw [h] at this
      simp at this
    · intro h
      rw [h] at this
      simp at this
  have hlook : ∀ (vs : List DbValue),
      (shapeRow formatRFC3339 parseFloat columns vs).lookup "embedding" = none ∧
      (shapeRow formatRFC3339 parseFloat columns vs).lookup "message" = none := by
    intro vs
    constructor
    · exact lookup_eq_none_of_keys _ _ fun p hp => (hkeys vs p hp).1
    · exact lookup_eq_none_of_keys _ _ fun p hp => (hkeys vs p hp).2
  refine ⟨(hlook vals).1, (hlook vals).2, ?_, rfl, fun t => rfl, ?_, ?_, ?_⟩
  · intro cv hcv h1 h2
    unfold shapeRow
    apply List.mem_map_of_mem
    rw [List.mem_filter]
    refine ⟨hcv, ?_⟩
    simp [h1, h2]
  · intro s hs hp
    simp [convertCell, hs, hp]
  · intro s hp
    simp [convertCell, hp]
  · intro generate query n resp hok row hrow
    have hres : resp.result =
        executeSQLRows formatRFC3339 parseFloat columns rows := by
      unfold ConvertToSQL at hok
      cases hgen : generate query with
      | error e =>
        rw [hgen] at hok
        cases hok
      | ok triple =>
        rw [hgen] at hok
        obtain ⟨sqlQuery, queryType, explanation⟩ := triple
        simp only at hok
        cases hok
        rfl
    rw [hres] at hrow
    unfold executeSQLRows at hrow
    obtain ⟨vs, _, rfl⟩ := List.mem_map.1 hrow
    exact hlook vs


/-! ### C9 — each tier is computed from the tier immediately below -/

/-- Bucketing an already-bucketed time is the identity. -/
theorem timeBucket_idem (width t : Nat) (hw : 0 < width) :
    timeBucket width (timeBucket width t) = timeBucket width t := by
  unfold timeBucket
  rw [Nat.mul_div_cancel_left _ hw]

/-- Every row of a `rollUp` carries exactly the aggregates of its own
group of lower-tier rows: the average of their averages, the minimum of
their minimums, the maximum of their maximums and the sum of their
counts. -/
theorem rollUp_mem_spec (width : Nat) (hw : 0 < width)
    (lower : List AggRow) (row : AggRow) (hrow : row ∈ rollUp width lower) :
    row.avgValue = ratAvg ((groupOf (aggKey width) lower
        (aggKey width row)).map (fun x => x.avgValue)) ∧
    row.minValue = qMin ((groupOf (aggKey width) lower
        (aggKey width row)).map (fun x => x.minValue)) ∧
    row.maxValue = qMax ((groupOf (aggKey width) lower
        (aggKey width row)).map (fun x => x.maxValue)) ∧
    row.readingCount = ((groupOf (aggKey width) lower
        (aggKey width row)).map (fun x => x.readingCount)).sum := by
  unfold rollUp at hrow
  obtain ⟨key, hkey, hmk⟩ := List.mem_map.1 hrow
  have hkey' : ∃ x ∈ lower, aggKey width x = key := by
    unfold keysOf at hkey
    rw [List.mem_dedup] at hkey
    exact List.mem_map.1 hkey
  obtain ⟨x, -, hxk⟩ := hkey'
  have hb : timeBucket width key.1 = key.1 := by
    have h1 : key.1 = timeBucket width x.bucket := by
      rw [← hxk]
      rfl
    rw [h1, timeBucket_idem width x.bucket hw]
  have hkeq : ∀ (a b c : ℚ) (d : Nat),
      aggKey width ⟨key.1, key.2.1, key.2.2, a, b, c, d⟩ = key := by
    intro a b c d
    show (timeBucket width key.1, key.2.1, key.2.2) = key
    rw [hb]
  subst hmk
  refine ⟨?_, ?_, ?_, ?_⟩ <;> rw [hkeq]

/-- C9: the hourly view is the roll-up of the 5-minute view and the
daily view the roll-up of the hourly view — each bucket's `avg_value`
is the average of the lower tier's averages, its `min_value` the
minimum of their minimums, its `max_value` the maximum of their
maximums and its `reading_count` the sum of their counts — while, per
the migration's `FROM` clauses, only the 5-minute tier and the daily
activity summary read the raw readings directly. -/
theorem c9_rollup_tiers_read_only_the_tier_below (rs : List Reading) :
    hourlyRows rs = rollUp 3600 (fiveMinRows rs) ∧
    dailyRows rs = rollUp 86400 (hourlyRows rs) ∧
    (∀ row ∈ hourlyRows rs,
      row.avgValue = ratAvg ((groupOf (aggKey 3600) (fiveMinRows rs)
          (aggKey 3600 row)).map (fun x => x.avgValue)) ∧
      row.minValue = qMin ((groupOf (aggKey 3600) (fiveMinRows rs)
          (aggKey 3600 row)).map (fun x => x.minValue)) ∧
      row.maxValue = qMax ((groupOf (aggKey 3600) (fiveMinRows rs)
          (aggKey 3600 row)).map (fun x => x.maxValue)) ∧
      row.readingCount = ((groupOf (aggKey 3600) (fiveMinRows rs)
          (aggKey 3600 row)).map (fun x => x.readingCount)).sum) ∧
    (∀ row ∈ dailyRows rs,
      row.avgValue = ratAvg ((groupOf (aggKey 86400) (hourlyRows rs)
          (aggKey 86400 row)).map (fun x => x.avgValue)) ∧
      row.minValue = qMin ((groupOf (aggKey 86400) (hourlyRows rs)
          (aggKey 86400 row)).map (fun x => x.minValue)) ∧
      row.maxValue = qMax ((groupOf (aggKey 86400) (hourlyRows rs)
          (aggKey 86400 row)).map (fun x => x.maxValue)) ∧
      row.readingCount = ((groupOf (aggKey 86400) (hourlyRows rs)
          (aggKey 86400 row)).map (fun x => x.readingCount)).sum) ∧
    viewSource AggSource.hourlyView = some AggSource.fiveMinView ∧
    viewSource AggSource.dailyView = some AggSource.hourlyView ∧
    (∀ v : AggSource, viewSource v = some AggSource.rawReadings ↔
      v = AggSource.fiveMinView ∨ v = AggSource.activityView) := by
  refine ⟨rfl, rfl, ?_, ?_, rfl, rfl, ?_⟩
  · intro row hrow
    exact rollUp_mem_spec 3600 (by norm_num) (fiveMinRows rs) row hrow
  · intro row hrow
    exact rollUp_mem_spec 86400 (by norm_num) (hourlyRows rs) row hrow
  · intro v
    cases v <;> simp [viewSource]

/-! ### C6 — classifier monotonicity under an appended keyword -/

/-- Splitting a prefix of `A ++ M` at the append boundary. -/
theorem prefix_append_cases {α : Type} {q A M : List α} (h : q <+: A ++ M) :
    q <+: A ∨ ∃ q₂, q = A ++ q₂ ∧ q₂ <+: M := by
  obtain ⟨r, hr⟩ := h
  rcases List.append_eq_append_iff.1 hr with ⟨a2, ha1, -⟩ | ⟨c2, hc1, hc2⟩
  · exact Or.inl ⟨a2, ha1.symm⟩
  · exact Or.inr ⟨c2, hc1, ⟨r, hc2.symm⟩⟩

/-- A contiguous substring of `L ++ M` lies in `L`, lies in `M`, or
spans the boundary: a nonempty suffix of `L` glued to a nonempty prefix
of `M`. -/
theorem infix_append_cases {α : Type} (q : List α) :
    ∀ (L M : List α), q <:+: L ++ M →
      q <:+: L ∨ q <:+: M ∨
        ∃ q₁ q₂, q = q₁ ++ q₂ ∧ q₁ ≠ [] ∧ q₂ ≠ [] ∧ q₁ <:+ L ∧ q₂ <+: M := by
  intro L
  induction L with
  | nil =>
    intro M h
    exact Or.inr (Or.inl (by simpa using h))
  | cons a L ih =>
    intro M h
    rw [List.cons_append, List.infix_cons_iff] at h
    rcases h with h | h
    · rcases prefix_append_cases (A := a :: L) h with h | ⟨q₂, rfl, h2⟩
      · exact Or.inl (List.IsPrefix.isInfix h)
      · rcases eq_or_ne q₂ [] with rfl | hne
        · rw [List.append_nil]
          exact Or.inl List.infix_rfl
        · exact Or.inr (Or.inr
            ⟨a :: L, q₂, rfl, by simp, hne, List.suffix_rfl, h2⟩)
    · rcases ih M h with h | h | ⟨q₁, q₂, heq, h1, h2, hs, hp⟩
      · exact Or.inl (List.infix_cons h)
      · exact Or.inr (Or.inl h)
      · exact Or.inr (Or.inr
          ⟨q₁, q₂, heq, h1, h2, hs.trans (List.suffix_cons a L), hp⟩)

/-- The suffix after a space occurring inside `q₁ ++ ' ' :: q₃` at the
position of that space. -/
theorem mem_spaceSuffixes (q₁ q₃ : List Char) :
    q₃ ∈ spaceSuffixes (q₁ ++ ' ' :: q₃) := by
  unfold spaceSuffixes
  rw [List.mem_filterMap]
  refine ⟨q₁.length, ?_, ?_⟩
  · rw [List.mem_range, List.length_append]
    simp
  · rw [List.drop_left]
    rfl

/-- Checked over the two fixed lexicons: no suffix of a pattern keyword
that starts right after one of its spaces is a prefix of a structured
keyword.  (Only "find logs" and "search for" contain a space, and
neither "logs" nor "for" begins any structured keyword.) -/
theorem no_pattern_suffix_starts_keyword :
    ∀ q ∈ patternKeywords, ∀ k ∈ dataKeywords,
      ∀ rest ∈ spaceSuffixes q.data, ¬ rest <+: k.data := by
  decide

/-- A pattern keyword cannot span the boundary created by appending
`" " ++ k` for a structured keyword `k`: its boundary part would have
to start with the space, making its remainder a prefix of `k`. -/
theorem pattern_no_span {q k : String} (hq : q ∈ patternKeywords)
    (hk : k ∈ dataKeywords) {q₁ q₂ : List Char} (h : q.data = q₁ ++ q₂)
    (h2 : q₂ ≠ []) (hp : q₂ <+: ' ' :: k.data) : False := by
  rcases List.prefix_cons_iff.1 hp with h0 | ⟨t, rfl, ht⟩
  · exact h2 h0
  · have hmem : t ∈ spaceSuffixes q.data := by
      rw [h]
      exact mem_spaceSuffixes q₁ t
    exact no_pattern_suffix_starts_keyword q hq k hk t hmem ht

/-- A pattern keyword inside `' ' :: k` already lies inside `k`. -/
theorem pattern_infix_space_cons {q k : String} (hq : q ∈ patternKeywords)
    (hk : k ∈ dataKeywords) (h : q.data <:+: ' ' :: k.data) :
    q.data <:+: k.data := by
  rcases List.infix_cons_iff.1 h with h | h
  · rcases eq_or_ne q.data ([] : List Char) with h0 | h0
    · rw [h0]
      exact List.nil_infix
    · exact (pattern_no_span hq hk (List.nil_append q.data).symm h0 h).elim
  · exact h

/-- A pattern keyword contained in a text with `" " ++ k` appended was
already contained in the text or lies inside `k` itself. -/
theorem pattern_transfer {q k : String} (hq : q ∈ patternKeywords)
    (hk : k ∈ dataKeywords) {L : List Char}
    (h : q.data <:+: L ++ ' ' :: k.data) :
    q.data <:+: L ∨ q.data <:+: k.data := by
  rcases infix_append_cases q.data L (' ' :: k.data) h
    with h | h | ⟨q₁, q₂, heq, -, h2, -, hp⟩
  · exact Or.inl h
  · exact Or.inr (pattern_infix_space_cons hq hk h)
  · exact (pattern_no_span hq hk heq h2 hp).elim

/-- `containsSub` as the infix relation. -/
theorem containsSub_iff {hay needle : List Char} :
    containsSub hay needle = true ↔ needle <:+: hay := by
  unfold containsSub
  exact decide_eq_true_iff

/-- Containment is preserved by appending on the right. -/
theorem containsSub_mono {L M w : List Char}
    (h : containsSub L w = true) : containsSub (L ++ M) w = true := by
  rw [containsSub_iff] at h ⊢
  exact h.trans ⟨[], M, by simp⟩

/-- Strict `countP` growth with a fresh witness. -/
theorem countP_lt_of_witness {α : Type} {p q : α → Bool} {l : List α}
    (hmono : ∀ x ∈ l, p x = true → q x = true) {a : α} (ha : a ∈ l)
    (hpa : p a = false) (hqa : q a = true) : l.countP p < l.countP q := by
  induction l with
  | nil => cases ha
  | cons hd tl ih =>
    rw [List.countP_cons, List.countP_cons]
    have hmono' : ∀ x ∈ tl, p x = true → q x = true :=
      fun x hx => hmono x (List.mem_cons_of_mem _ hx)
    have hle : tl.countP p ≤ tl.countP q := List.countP_mono_left hmono'
    rcases List.mem_cons.1 ha with rfl | ha'
    · rw [hpa, hqa]
      simp only [if_true]
      have : (if (false = true) then 1 else 0) = 0 := by simp
      rw [this]
      omega
    · have hlt := ih hmono' ha'
      by_cases hph : p hd = true
      · rw [hph, hmono hd (List.mem_cons_self hd tl) hph]
        simpa using hlt
      · rw [Bool.not_eq_true] at hph
        rw [hph]
        by_cases hqh : q hd = true
        · rw [hqh]
          simp only [if_true]
          have : (if (false = true) then 1 else 0) = 0 := by simp
          rw [this]
          omega
        · rw [Bool.not_eq_true] at hqh
          rw [hqh]
          simpa using hlt

/-- `countP` of a disjunction is at most the sum of the `countP`s. -/
theorem countP_or_le {α : Type} (p q : α → Bool) (l : List α) :
    l.countP (fun a => p a || q a) ≤ l.countP p + l.countP q := by
  induction l with
  | nil => simp
  | cons hd tl ih =>
    rw [List.countP_cons, List.countP_cons, List.countP_cons]
    by_cases hp : p hd = true <;> by_cases hq : q hd = true <;>
      simp [hp, hq] <;> omega

/-- Checked over the lexicons: at most one pattern keyword is contained
in any single structured keyword ("how" inside "how many" is the only
such pair). -/
theorem patterns_inside_one_keyword : ∀ k ∈ dataKeywords,
    patternKeywords.countP (fun q => containsSub k.data q.data) ≤ 1 := by
  decide

/-- Checked over the lexicon: structured keywords are already
lower-case. -/
theorem dataKeywords_lower_invariant :
    ∀ k ∈ dataKeywords, k.data.map Char.toLower = k.data := by
  decide

/-- Lower-casing an appended `" " ++ k` splits off the keyword
verbatim. -/
theorem toLowerList_append_keyword (t k : String) (hk : k ∈ dataKeywords) :
    toLowerList (t ++ " " ++ k) = toLowerList t ++ ' ' :: k.data := by
  unfold toLowerList
  rw [String.data_append, String.data_append, List.map_append,
    List.map_append, dataKeywords_lower_invariant k hk, List.append_assoc]
  rfl

/-- C6: appending one more structured-lexicon keyword occurrence (as a
separate, space-separated word) to a text classified `"data_query"`
keeps the classification `"data_query"`: the structured hit count can
only grow (strictly, when the keyword is new to the text), while the
pattern hit count can gain at most the lone pattern keyword embedded in
the appended structured keyword. -/
theorem c6_classifier_monotone_under_keyword_append (t k : String)
    (hk : k ∈ dataKeywords) (h : determineQueryType t = "data_query") :
    determineQueryType (t ++ " " ++ k) = "data_query" := by
  by_cases hgt : dataMatches t > patternMatches t
  case neg =>
    unfold determineQueryType at h
    rw [if_neg hgt] at h
    exact absurd h (by decide)
  case pos =>
    suffices hgoal : dataMatches (t ++ " " ++ k) > patternMatches (t ++ " " ++ k) by
      unfold determineQueryType
      rw [if_pos hgoal]
    unfold dataMatches patternMatches at hgt ⊢
    rw [toLowerList_append_keyword t k hk]
    set L := toLowerList t with hL
    have hdm : ∀ k2 ∈ dataKeywords, containsSub L k2.data = true →
        containsSub (L ++ ' ' :: k.data) k2.data = true :=
      fun k2 _ h2 => containsSub_mono h2
    by_cases hck : containsSub L k.data = true
    · have hd : dCountL L ≤ dCountL (L ++ ' ' :: k.data) :=
        List.countP_mono_left hdm
      have hkL : k.data <:+: L := containsSub_iff.1 hck
      have hpm : ∀ q ∈ patternKeywords,
          containsSub (L ++ ' ' :: k.data) q.data = true →
          containsSub L q.data = true := by
        intro q hq h2
        rw [containsSub_iff] at h2 ⊢
        rcases pattern_transfer hq hk h2 with h3 | h3
        · exact h3
        · exact h3.trans hkL
      have hp : pCountL (L ++ ' ' :: k.data) ≤ pCountL L :=
        List.countP_mono_left hpm
      unfold dCountL pCountL at *
      omega
    · have hckf : containsSub L k.data = false := by
        rw [← Bool.not_eq_true]
        exact hck
      have hnew : containsSub (L ++ ' ' :: k.data) k.data = true := by
        rw [containsSub_iff]
        exact ⟨L ++ [' '], [], by simp⟩
      have hd : dCountL L < dCountL (L ++ ' ' :: k.data) :=
        countP_lt_of_witness hdm hk hckf hnew
      have hpm : ∀ q ∈ patternKeywords,
          containsSub (L ++ ' ' :: k.data) q.data = true →
          (containsSub L q.data || containsSub k.data q.data) = true := by
        intro q hq h2
        rw [containsSub_iff] at h2
        rw [Bool.or_eq_true]
        rcases pattern_transfer hq hk h2 with h3 | h3
        · exact Or.inl (containsSub_iff.2 h3)
        · exact Or.inr (containsSub_iff.2 h3)
      have hp1 : pCountL (L ++ ' ' :: k.data) ≤ patternKeywords.countP
          (fun q => containsSub L q.data || containsSub k.data q.data) :=
        List.countP_mono_left hpm
      have hp2 := countP_or_le (fun q : String => containsSub L q.data)
        (fun q : String => containsSub k.data q.data) patternKeywords
      have hp3 := patterns_inside_one_keyword k hk
      unfold dCountL pCountL at *
      omega

/-- C6 at a concrete input: "count devices" is classified
`"data_query"` and stays so after appending the keyword "average". -/
theorem c6_monotonicity_witness :
    determineQueryType ("count devices" ++ " " ++ "average") = "data_query" :=
  c6_classifier_monotone_under_keyword_append "count devices" "average"
    (by decide) (by decide)

end EdgeInsights
